import Mathlib

/-!
# Verification of the Semantic Query Resolution & Clarification Engine

A shallow embedding of the `uni-ai-chatbot` repository.  Two layers are
modelled:

* the chat client (`src/frontend/src/Chatbot.jsx`): `sendQuery`, `askQuery`,
  `handleClarification`, `downloadCSV`, `renderClarificationOptions` and the
  input-control disabled flags, translated function by function;
* the backend resolution/clarification engine, which is described by the
  design document but whose implementation is not part of the visible
  sources.  Those definitions are marked `Modelled from the spec:` in their
  doc comments and follow the document's wording.

JavaScript dynamic values are narrowed to the shapes the code actually
distinguishes; each such narrowing is noted where it happens.
-/

set_option autoImplicit false

namespace UniChat

/-! ## Engine data model (modelled from the spec) -/

/-- Modelled from the spec (§3 AccessScope): user roles. -/
inductive Role
  | student
  | admin
deriving DecidableEq, Repr

/-- Modelled from the spec (§3 QueryIntent): the fixed intent kinds. -/
inductive IntentKind
  | count
  | list
  | show_field
  | aggregate
  | predict
deriving DecidableEq, Repr

/-- Modelled from the spec (§7): the error taxonomy. -/
inductive ErrKind
  | UnknownColumn
  | NoMatch
  | Unclassifiable
  | Forbidden
  | UnsupportedFilter
  | Timeout
  | ConnectionLost
  | SessionExpired
deriving DecidableEq, Repr

/-- Modelled from the spec (§4.1): one ranked fuzzy-match candidate;
confidence is a rational in `[0,1]`. -/
structure Candidate where
  value : String
  confidence : ℚ
deriving DecidableEq, Repr

/-- Modelled from the spec (§3 ResolvedEntity). -/
structure ResolvedEntity where
  sourceSpan : String
  column : String
  candidates : List Candidate
  chosen : Option String
deriving DecidableEq, Repr

/-- Modelled from the spec (§3 QueryIntent). -/
structure QueryIntent where
  kind : IntentKind
  targetColumns : List String
  filters : List (String × ResolvedEntity)
  subjectUser : Option String
deriving DecidableEq, Repr

/-- Modelled from the spec (§3 AccessScope). -/
structure AccessScope where
  role : Role
  ownerId : String
deriving DecidableEq, Repr

/-- Modelled from the spec (§6): an option offered by a clarification. -/
structure ClarOption where
  column : String
  value : String
  description : String
deriving DecidableEq, Repr

/-- A clarification answer, `{column, value}` (spec §6 `clarificationAnswer`;
also the object the client posts back). -/
structure ClarAnswer where
  column : String
  value : String
deriving DecidableEq, Repr

/-- Modelled from the spec (§3 ClarificationSession). -/
structure ClarificationSession where
  originalQuery : String
  pendingEntity : ResolvedEntity
  role : Role
  ownerId : String
  createdAt : Nat
  expiresAt : Nat
deriving DecidableEq, Repr

/-- Modelled from the spec (§6 Outcome).  The `generatedQuery`, `rows` and
`executionTimeMs` payload of `Result` is not referenced by any verified
property and is omitted. -/
inductive Outcome
  | needsClarification (message : String) (options : List ClarOption)
  | result (intent : QueryIntent)
  | error (kind : ErrKind) (message : String)
deriving DecidableEq, Repr

/-! ## Entity-resolution thresholds (spec §4.1) -/

/-- Modelled from the spec (§4.1): the auto-resolve threshold, `ACCEPT ≥ 0.90`. -/
def ACCEPT_THRESHOLD : ℚ := 9 / 10

/-- Modelled from the spec (§4.1): the lower edge of the ambiguous band, `0.60`. -/
def AMBIGUOUS_LOW : ℚ := 3 / 5

/-- Modelled from the spec (§4.1): two candidates are in a tie when they are
within `0.05` of each other. -/
def TIE_WINDOW : ℚ := 1 / 20

/-- Modelled from the spec (§4.1): a clarification offers up to 5 top candidates. -/
def MAX_OPTIONS : Nat := 5

/-- Modelled from the spec (§4.3): fixed session expiry, 10 minutes in seconds. -/
def SESSION_TIMEOUT : Nat := 600

/-- The three-way decision the resolver takes on one entity span. -/
inductive EntityDecision
  | auto (value : String)
  | clarify
  | noMatch
deriving DecidableEq, Repr

/-- Modelled from the spec (§4.1): candidates arrive sorted by descending
confidence; the top candidate decides between auto-resolve (`≥ 0.90`),
failure (`< 0.60`) and clarification (ambiguous band with a second
candidate within `0.05`). -/
def decideEntity (cands : List Candidate) : EntityDecision :=
  match cands with
  | [] => EntityDecision.noMatch
  | top :: rest =>
    if ACCEPT_THRESHOLD ≤ top.confidence then EntityDecision.auto top.value
    else if top.confidence < AMBIGUOUS_LOW then EntityDecision.noMatch
    else if rest.any (fun c => top.confidence - c.confidence ≤ TIE_WINDOW) then
      EntityDecision.clarify
    else EntityDecision.auto top.value

/-- Confidence of the best (first) candidate; `0` for an empty list. -/
def topConfidence (cands : List Candidate) : ℚ :=
  match cands with
  | [] => 0
  | top :: _ => top.confidence

/-- Modelled from the spec (§6): the description shown with an option.  Its
exact content is unspecified; the column and canonical value are displayed. -/
def optionDescription (column value : String) : String :=
  column ++ ": " ++ value

/-- Modelled from the spec (§4.1): the up-to-5 top candidates offered when a
span is ambiguous. -/
def clarifyOptions (column : String) (cands : List Candidate) : List ClarOption :=
  (cands.take MAX_OPTIONS).map fun c =>
    { column := column, value := c.value, description := optionDescription column c.value }

/-! ## Access Policy Engine (spec §4.4) -/

/-- Modelled from the spec (§4.4): student scope pins `subjectUser` to the
owner, or fails with `Forbidden` when a different subject was requested;
admin scope passes through unchanged. -/
def authorize (intent : QueryIntent) (scope : AccessScope) : Except ErrKind QueryIntent :=
  match scope.role with
  | Role.admin => Except.ok intent
  | Role.student =>
    match intent.subjectUser with
    | none => Except.ok { intent with subjectUser := some scope.ownerId }
    | some u =>
      if u = scope.ownerId then Except.ok intent
      else Except.error ErrKind.Forbidden

/-! ## The `process` pipeline (spec §2, §4.3, §6) -/

/-- The Entity Resolver's output for one extracted span: the span text, the
column it was matched against, and the ranked candidates. -/
structure SpanResolution where
  sourceSpan : String
  column : String
  candidates : List Candidate
deriving DecidableEq, Repr

/-- Holds (as `true`) when the span's resolution fails with `NoMatch`. -/
def spanNoMatch (sr : SpanResolution) : Bool :=
  match decideEntity sr.candidates with
  | EntityDecision.noMatch => true
  | _ => false

/-- Holds (as `true`) when the span's resolution falls in the ambiguous band. -/
def spanClarify (sr : SpanResolution) : Bool :=
  match decideEntity sr.candidates with
  | EntityDecision.clarify => true
  | _ => false

/-- Modelled from the spec (§2 control flow, §4.3, §6 `process`): entity
resolution first (a failed span is a terminal `NoMatch` error), then the
access-policy check on the classified intent, then the clarification branch
(the first ambiguous span, in extraction order, opens a `ClarificationSession`),
and otherwise a `Result`.  The resolver and classifier outputs (`spans`,
`intent0`) are inputs, since their internals are outside the verified
properties. -/
def process (query : String) (now : Nat) (spans : List SpanResolution)
    (intent0 : QueryIntent) (scope : AccessScope) :
    Outcome × Option ClarificationSession :=
  match spans.find? spanNoMatch with
  | some sr => (Outcome.error ErrKind.NoMatch ("could not understand " ++ sr.sourceSpan), none)
  | none =>
    match authorize intent0 scope with
    | Except.error k =>
      (Outcome.error k "Students may only access their own records.", none)
    | Except.ok intent =>
      match spans.find? spanClarify with
      | some sr =>
        (Outcome.needsClarification
            ("Did you mean one of these for " ++ sr.sourceSpan ++ "?")
            (clarifyOptions sr.column sr.candidates),
         some { originalQuery := query,
                pendingEntity :=
                  { sourceSpan := sr.sourceSpan, column := sr.column,
                    candidates := sr.candidates, chosen := none },
                role := scope.role, ownerId := scope.ownerId,
                createdAt := now, expiresAt := now + SESSION_TIMEOUT })
      | none => (Outcome.result intent, none)

/-! ## Clarification Manager (spec §4.3, §5) -/

/-- Modelled from the spec (§4.3): the per-(user, query) states. -/
inductive ClarState
  | Idle
  | AwaitingClarification
  | Resolved
  | Cancelled
  | Expired
deriving DecidableEq, Repr

/-- Modelled from the spec (§4.3): the events driving the state machine. -/
inductive ClarEvent
  | ambiguousResult
  | answer
  | newQuery
  | cancel
  | timeout
deriving DecidableEq, Repr

/-- Modelled from the spec (§4.3): the Clarification Manager transitions;
events with no listed transition leave the state unchanged. -/
def mgrStep (s : ClarState) (e : ClarEvent) : ClarState :=
  match s, e with
  | ClarState.Idle, ClarEvent.ambiguousResult => ClarState.AwaitingClarification
  | ClarState.AwaitingClarification, ClarEvent.answer => ClarState.Resolved
  | ClarState.AwaitingClarification, ClarEvent.newQuery => ClarState.Cancelled
  | ClarState.AwaitingClarification, ClarEvent.cancel => ClarState.Cancelled
  | ClarState.AwaitingClarification, ClarEvent.timeout => ClarState.Expired
  | s, _ => s

/-- Modelled from the spec (§4.3): answering writes the chosen value back
into the pending `ResolvedEntity`. -/
def writeBackChosen (e : ResolvedEntity) (ans : ClarAnswer) : ResolvedEntity :=
  { e with chosen := some ans.value }

/-- Splits a character list on a separator (the semantics of splitting a
string on a single-character separator). -/
def splitOnChar (sep : Char) : List Char → List (List Char)
  | [] => [[]]
  | c :: rest =>
    let r := splitOnChar sep rest
    if c = sep then [] :: r
    else
      match r with
      | [] => [[c]]
      | w :: ws => (c :: w) :: ws

/-- The lower-cased words of a query (split on spaces). -/
def queryWords (s : String) : List String :=
  (splitOnChar ' ' (s.data.map Char.toLower)).map String.mk

/-- Modelled from the spec (§4.2): keyword-based intent classification, with
the explicit `show_field` fallback for a query with no intent keyword. -/
def classifyKind (query : String) : IntentKind :=
  let words := queryWords query
  if words.contains "count" then IntentKind.count
  else if words.contains "predict" then IntentKind.predict
  else if words.contains "average" || words.contains "aggregate" then IntentKind.aggregate
  else if words.contains "list" then IntentKind.list
  else IntentKind.show_field

/-- Modelled from the spec (§4.3): the intent processing resumes with after a
clarification answer — reclassified from the original query over the
now-fully-resolved entity. -/
def resumedIntent (sess : ClarificationSession) (entity : ResolvedEntity) : QueryIntent :=
  { kind := classifyKind sess.originalQuery,
    targetColumns := [entity.column],
    filters := [(entity.column, entity)],
    subjectUser := if sess.role = Role.student then some sess.ownerId else none }

/-- The session-table key: user id and original query (spec §5). -/
abbrev SessionKey := String × String

/-- Find the live session for a key, first match. -/
def lookupSession (tbl : List (SessionKey × ClarificationSession)) (key : SessionKey) :
    Option ClarificationSession :=
  match tbl with
  | [] => none
  | e :: rest => if e.1 = key then some e.2 else lookupSession rest key

/-- Remove every session stored under a key. -/
def removeSession (tbl : List (SessionKey × ClarificationSession)) (key : SessionKey) :
    List (SessionKey × ClarificationSession) :=
  tbl.filter fun e => decide (e.1 ≠ key)

/-- Engine-side mutable state: the session table (spec §5) and a counter of
query executions against the storage engine. -/
structure EngineState where
  sessions : List (SessionKey × ClarificationSession)
  executed : Nat
deriving DecidableEq, Repr

/-- Modelled from the spec (§4.3, §5, §7): a clarification answer turn.  A
missing session (already consumed, cancelled or expired) is a terminal
`SessionExpired` error; a live session is destroyed on selection, the chosen
value is written back, processing resumes and the query executes exactly
once. -/
def answerClarification (st : EngineState) (userId originalQuery : String)
    (ans : ClarAnswer) : Outcome × EngineState :=
  match lookupSession st.sessions (userId, originalQuery) with
  | none =>
    (Outcome.error ErrKind.SessionExpired
      "Your clarification session has expired. Please re-ask your query.", st)
  | some sess =>
    (Outcome.result (resumedIntent sess (writeBackChosen sess.pendingEntity ans)),
     { sessions := removeSession st.sessions (userId, originalQuery),
       executed := st.executed + 1 })

/-- Modelled from the spec (§7): only storage-engine errors are transient. -/
def isTransient (k : ErrKind) : Bool :=
  match k with
  | ErrKind.Timeout => true
  | ErrKind.ConnectionLost => true
  | _ => false

/-- Modelled from the spec (§7): the execution wrapper retries a transient
error once; every other outcome — resolution, classification and policy
errors included — is surfaced directly after a single attempt.  Returns the
final outcome and the number of attempts made. -/
def runWithRetry (attempt : Nat → Outcome) : Outcome × Nat :=
  match attempt 0 with
  | Outcome.error k m =>
    if isTransient k then (attempt 1, 2) else (Outcome.error k m, 1)
  | o => (o, 1)

/-! ## Chat client data model (`src/frontend/src/Chatbot.jsx`)

JavaScript values that flow through the client are narrowed to the shapes the
code distinguishes: a row cell is `null`/`undefined`/string/integer/boolean
(`JsVal`); an absent object field is an `Option` set to `none`; the `options`
field of a payload is either JSON `null` or an array of options
(`OptionsField`), which is exactly the distinction the truthiness test
`payload?.options` makes, since a JavaScript array (empty or not) is truthy
and `null`/`undefined` are falsy. -/

/-- A JavaScript value as it appears in a result row. -/
inductive JsVal
  | null
  | undef
  | str (s : String)
  | int (n : Int)
  | bool (b : Bool)
deriving DecidableEq, Repr

/-- JavaScript `String(value)` on the modelled `JsVal` shapes. -/
def jsString (v : JsVal) : String :=
  match v with
  | JsVal.null => "null"
  | JsVal.undef => "undefined"
  | JsVal.str s => s
  | JsVal.int n => toString n
  | JsVal.bool b => cond b "true" "false"

/-- A result row: an ordered list of key/value fields (``Object.keys`` order). -/
abbrev Row := List (String × JsVal)

/-- Reads `row[k]`: the first field named `k`, `none` when the key is absent
(a JavaScript `undefined` read). -/
def rowGet (row : Row) (k : String) : Option JsVal :=
  match row.find? (fun e => e.1 = k) with
  | some e => some e.2
  | none => none

/-- The `options` field of a backend payload: JSON `null` or an array. -/
inductive OptionsField
  | null
  | arr (options : List ClarOption)
deriving DecidableEq, Repr

/-- A backend response payload.  Every field the client reads is present;
`none` models a JavaScript `undefined` read of an absent field.  The nested
`[rows, meta]` data shape mentioned in a comment of `buildBotText` is outside
the modelled payload domain (`data` holds plain rows). -/
structure Payload where
  success : Option Bool := none
  status : Option String := none
  message : Option String := none
  intent : Option String := none
  options : Option OptionsField := none
  ambiguous_terms : Option (List String) := none
  data : Option (List Row) := none
  count : Option Int := none
  error : Bool := false
deriving DecidableEq, Repr

/-- The request body built by `apiService.sendQuery`
(`{query, userid, role, clarification?}`). -/
structure Request where
  query : String
  userid : String
  role : String
  clarification : Option ClarAnswer
deriving DecidableEq, Repr

/-- The logged-in user handed to the `Chatbot` component. -/
structure UserInfo where
  userid : String
  role : String
deriving DecidableEq, Repr

/-- The result of `response.json()`: a parsed payload, or a parse throw with
its message. -/
inductive JsonResult
  | parsed (p : Payload)
  | threw (msg : String)
deriving DecidableEq, Repr

/-- What one `fetch` of the chatbot endpoint can come back with: a thrown
network failure, or an HTTP response with a status code, a body text and the
result of `response.json()`. -/
inductive FetchOutcome
  | fail (msg : String)
  | resp (status : Nat) (text : String) (json : JsonResult)
deriving DecidableEq, Repr

/-- Computes `response.ok`: status in the 2xx range. -/
def respOk (status : Nat) : Bool :=
  200 ≤ status && status ≤ 299

/-- The fallback object `sendQuery` returns from its `catch` block:
`{success: false, message: error.message, data: [], error: true}`. -/
def errorShape (msg : String) : Payload :=
  { success := some false, message := some msg, data := some ([] : List Row), error := true }

/-- Translates `apiService.sendQuery` (Chatbot.jsx lines 4-47): a thrown fetch rejects
into the catch block; a non-2xx response throws `HTTP <status>: <body>` which
the same catch turns into the fallback shape; a JSON parse throw is caught the
same way; otherwise the parsed payload is returned as is. -/
def sendQuery (net : FetchOutcome) : Payload :=
  match net with
  | FetchOutcome.fail m => errorShape m
  | FetchOutcome.resp status text json =>
    if respOk status then
      match json with
      | JsonResult.parsed d => d
      | JsonResult.threw m => errorShape m
    else errorShape ("HTTP " ++ toString status ++ ": " ++ text)

/-- Translates `unwrapBackend` (Chatbot.jsx lines 103-109).  A payload whose `success`
is defined is already real; otherwise `r.data || r` is returned — when `data`
is an array (truthy even when empty) the raw array itself becomes the
"payload", modelled by `{}` since every payload-field read on an array is
`undefined`.  The `{status, data: {…}}` wrapping with a payload-valued `data`
is outside the modelled domain. -/
def unwrapBackend (r : Option Payload) : Option Payload :=
  match r with
  | none => none
  | some p =>
    if p.success.isSome then some p
    else
      match p.data with
      | some _ => some {}
      | none => some p

/-- JavaScript `.trim()`: strips leading and trailing whitespace. -/
def jsTrim (s : String) : String :=
  String.mk (((s.data.dropWhile Char.isWhitespace).reverse.dropWhile Char.isWhitespace).reverse)

/-- JavaScript `s || dflt` for an optional string: `undefined`, `null` and
`""` are falsy. -/
def jsOrStr (o : Option String) (dflt : String) : String :=
  match o with
  | some s => if s = "" then dflt else s
  | none => dflt

/-- Holds when the first character list is an initial segment of the second. -/
def charSeqStarts : List Char → List Char → Bool
  | [], _ => true
  | _ :: _, [] => false
  | p :: ps, c :: cs => p == c && charSeqStarts ps cs

/-- Holds when the first character list occurs contiguously in the second. -/
def charSeqHas (pat : List Char) (l : List Char) : Bool :=
  match l with
  | [] => pat.isEmpty
  | _ :: cs => charSeqStarts pat l || charSeqHas pat cs

/-- Case-insensitive substring test (the `/active|enrolled|current/i` regex
test is a case-insensitive substring check for each alternative; the
patterns used are lower-case). -/
def containsCI (s pat : String) : Bool :=
  charSeqHas pat.data (s.data.map Char.toLower)

/-- The noun picked by `buildBotText` from the intent string. -/
def countNoun (intentStr : Option String) : String :=
  let s := intentStr.getD ""
  if containsCI s "active" || containsCI s "enrolled" || containsCI s "current" then
    "currently enrolled students"
  else "students"

/-- Translates `buildBotText` (Chatbot.jsx lines 111-133); `toLocaleString` is modelled
as plain decimal `toString`. -/
def buildBotText (d : Option Payload) : String :=
  match d with
  | none => "Query processed."
  | some p =>
    if jsOrStr p.message "" ≠ "" then p.message.getD ""
    else
      match p.count with
      | some c => "📊 **" ++ toString c ++ "** " ++ countNoun p.intent ++ "."
      | none =>
        match p.data with
        | some rows => "📋 Returned " ++ toString rows.length ++ " rows."
        | none => "Query processed."

/-- A chat transcript message, with the fields the code sets or reads. -/
inductive MsgType
  | user
  | bot
deriving DecidableEq, Repr

/-- One message of the transcript. -/
structure Msg where
  type : MsgType
  content : String
  needsClarification : Bool := false
  success : Option Bool := none
  isError : Bool := false
  isClarification : Bool := false
deriving DecidableEq, Repr

/-- Number of bot messages in a transcript. -/
def botCount (msgs : List Msg) : Nat :=
  (msgs.filter fun m => m.type == MsgType.bot).length

/-- The `pendingClarification` state object
(`{query, options, ambiguous_terms, message}`). -/
structure PendingClar where
  query : String
  options : List ClarOption
  ambiguous_terms : List String
  message : Option String
deriving DecidableEq, Repr

/-- The client component state: the input box, the transcript and the
loading/connection/pending-clarification flags. -/
structure ClientState where
  query : String
  messages : List Msg
  loading : Bool
  connectionError : Bool
  pendingClarification : Option PendingClar
deriving DecidableEq, Repr

/-- Truthiness of `payload?.options`: absent and `null` are falsy, an array
(empty or not) is truthy. -/
def optionsTruthy (o : Option OptionsField) : Bool :=
  match o with
  | some (OptionsField.arr _) => true
  | _ => false

/-- Line 163: `payload?.intent === "clarify_column" && payload?.options`. -/
def needsClarificationOf (payload : Option Payload) : Bool :=
  match payload with
  | none => false
  | some p => (p.intent == some "clarify_column") && optionsTruthy p.options

/-- Reads `payload?.error` as a boolean. -/
def payloadTruthyError (payload : Option Payload) : Bool :=
  match payload with
  | some p => p.error
  | none => false

/-- Computes `currentQuery = queryText || query.trim()` (line 136): a `null` or empty
`queryText` falls back to the trimmed input box. -/
def currentQueryOf (st : ClientState) (queryText : Option String) : String :=
  match queryText with
  | some t => if t = "" then jsTrim st.query else t
  | none => jsTrim st.query

/-- Lines 140-149: a non-clarification call appends the user message and
clears the input box. -/
def addUserMessage (st : ClientState) (currentQuery : String)
    (clarification : Option ClarAnswer) : ClientState :=
  match clarification with
  | none =>
    { st with messages := st.messages ++ [{ type := MsgType.user, content := currentQuery }],
              query := "" }
  | some _ => st

/-- Lines 168-177: the bot message built from the raw response and the
unwrapped payload. -/
def botMessageOf (raw : Payload) (payload : Option Payload) (needs : Bool) : Msg :=
  { type := MsgType.bot,
    content :=
      if needs then jsOrStr (payload.bind Payload.message) "I need clarification to process your query."
      else buildBotText payload,
    needsClarification := needs,
    success := payload.bind Payload.success,
    isError := (raw.status == some "error") || payloadTruthyError payload }

/-- Lines 183-188: the `pendingClarification` object stored when the payload
asks for a clarification (`ambiguous_terms || []`). -/
def pendingOf (currentQuery : String) (payload : Option Payload) : Option PendingClar :=
  match payload with
  | none => none
  | some p =>
    match p.options with
    | some (OptionsField.arr l) =>
      some { query := currentQuery, options := l,
             ambiguous_terms := p.ambiguous_terms.getD [],
             message := p.message }
    | _ => none

/-- The body of `askQuery` past the empty-input guard (lines 140-207).  The
sequence of `setState` calls is collapsed to the final state it produces:
`loading` ends `false`, `connectionError` ends `false` (the catch never runs
because `sendQuery` never throws), `pendingClarification` is the cleared
value unless the response asks for a clarification, and the bot message is
appended after the optional user message.  The request actually posted is
returned alongside. -/
def askQuerySend (user : UserInfo) (st : ClientState) (currentQuery : String)
    (clarification : Option ClarAnswer) (net : FetchOutcome) :
    ClientState × Option Request :=
  let st1 := addUserMessage st currentQuery clarification
  let raw := sendQuery net
  let payload := unwrapBackend (some raw)
  let needs := needsClarificationOf payload
  let pending :=
    if needs && optionsTruthy (payload.bind Payload.options) then pendingOf currentQuery payload
    else none
  ({ st1 with
      loading := false,
      connectionError := false,
      pendingClarification := pending,
      messages := st1.messages ++ [botMessageOf raw payload needs] },
   some { query := currentQuery, userid := user.userid, role := user.role,
          clarification := clarification })

/-- Translates `askQuery` (Chatbot.jsx lines 135-208): the empty-input guard
(`!currentQuery && !clarification`) returns before anything — including the
`setPendingClarification(null)` reset — happens. -/
def askQuery (user : UserInfo) (st : ClientState) (queryText : Option String)
    (clarification : Option ClarAnswer) (net : FetchOutcome) :
    ClientState × Option Request :=
  let currentQuery := currentQueryOf st queryText
  if currentQuery = "" ∧ clarification = none then (st, none)
  else askQuerySend user st currentQuery clarification net

/-- Translates `handleClarification` (Chatbot.jsx lines 211-231): with no pending
clarification it does nothing; otherwise it appends the user's choice message
and resubmits the pending query with `{column, value}` of the choice. -/
def handleClarification (user : UserInfo) (st : ClientState) (choice : ClarOption)
    (net : FetchOutcome) : ClientState × Option Request :=
  match st.pendingClarification with
  | none => (st, none)
  | some pending =>
    let st1 :=
      { st with messages := st.messages ++
          [{ type := MsgType.user,
             content := "I meant: " ++ choice.description ++ " (" ++ choice.value ++ ")",
             isClarification := true }] }
    askQuery user st1 (some pending.query) (some { column := choice.column, value := choice.value }) net

/-- One rendered clarification button (icon, title, value, description). -/
structure RenderedOption where
  icon : String
  title : String
  value : String
  description : String
deriving DecidableEq, Repr

/-- One button of `renderClarificationOptions` (Chatbot.jsx lines 299-322). -/
def renderOption (o : ClarOption) : RenderedOption :=
  { icon := if o.column = "programme" then "🎓" else "📚",
    title := if o.column = "programme" then "Programme" else "Subject",
    value := o.value,
    description := o.description }

/-- Translates `renderClarificationOptions` (Chatbot.jsx lines 292-326): one button per
option, in order. -/
def renderClarificationOptions (options : List ClarOption) : List RenderedOption :=
  options.map renderOption

/-- The textarea `disabled={loading || pendingClarification}` (line 1081). -/
def inputDisabledFlag (st : ClientState) : Bool :=
  st.loading || st.pendingClarification.isSome

/-- The send button `disabled={loading || !query.trim() || pendingClarification}`
(line 1085). -/
def sendDisabledFlag (st : ClientState) : Bool :=
  st.loading || jsTrim st.query == "" || st.pendingClarification.isSome

/-! ## CSV export (`downloadCSV`, Chatbot.jsx lines 233-265) -/

/-- Holds (as `true`) when the field's string form must be quoted (contains a comma,
a double quote or a newline). -/
def needsQuoting (s : String) : Bool :=
  s.data.contains ',' || s.data.contains '"' || s.data.contains '\n'

/-- JavaScript `stringValue.replace(/"/g, String.mk ['"', '"'])`: every double
quote is doubled. -/
def escapeQuotes (s : String) : String :=
  String.mk (s.data.foldr (fun c acc => if c = '"' then '"' :: '"' :: acc else c :: acc) [])

/-- One CSV cell from `row[k]` (`none` = absent key = `undefined`):
`null`/`undefined` become the two-character literal `""`; a string form with
a comma, quote or newline is wrapped in quotes with inner quotes doubled;
anything else is emitted raw. -/
def csvCell (v : Option JsVal) : String :=
  match v with
  | none => "\"\""
  | some JsVal.null => "\"\""
  | some JsVal.undef => "\"\""
  | some w =>
    let s := jsString w
    if needsQuoting s then "\"" ++ escapeQuotes s ++ "\""
    else s

/-- Translates `downloadCSV` (lines 233-265), restricted to the CSV text it builds:
`none` models the `alert` path with no file.  The header is the first row's
keys joined by commas; every row is emitted against those keys. -/
def downloadCSV (data : List Row) : Option String :=
  match data with
  | [] => none
  | r0 :: _ =>
    let keys := r0.map Prod.fst
    some (String.intercalate "\n"
      (String.intercalate "," keys ::
        data.map fun row => String.intercalate "," (keys.map fun k => csvCell (rowGet row k))))

/-! ## Concrete data for witnesses and counterexamples -/

/-- A demo user. -/
def wUser : UserInfo := { userid := "12345", role := "student" }

/-- A pending clarification as the client stores it. -/
def wPending : PendingClar :=
  { query := "students from malaysia",
    options := [{ column := "country", value := "Malaysia", description := "country: Malaysia" },
                { column := "programme", value := "Malaysia Campus IT",
                  description := "programme: Malaysia Campus IT" }],
    ambiguous_terms := ["malaysia"],
    message := some "Please clarify" }

/-- A client state with an empty input box and a pending clarification. -/
def wStPending : ClientState :=
  { query := "", messages := [], loading := false, connectionError := false,
    pendingClarification := some wPending }

/-- A client state about to send a fresh query. -/
def wStReady : ClientState :=
  { query := "students from malaysia", messages := [], loading := false,
    connectionError := false, pendingClarification := none }

/-- A backend payload that asks for a clarification. -/
def wClarifyPayload : Payload :=
  { success := some true, message := some "Please clarify",
    intent := some "clarify_column",
    options := some (OptionsField.arr wPending.options),
    ambiguous_terms := some ["malaysia"] }

/-- A successful fetch of the clarification payload. -/
def wNetClarify : FetchOutcome :=
  FetchOutcome.resp 200 "" (JsonResult.parsed wClarifyPayload)

/-- A payload that carries `intent = "clarify_column"` and an `options` field
whose value is JSON `null`. -/
def wNullOptionsPayload : Payload :=
  { intent := some "clarify_column", options := some OptionsField.null }

/-- A successful fetch of the null-options payload. -/
def wNetNullOptions : FetchOutcome :=
  FetchOutcome.resp 200 "" (JsonResult.parsed wNullOptionsPayload)

/-- A span that resolves far above the acceptance threshold. -/
def wSpanCS : SpanResolution :=
  { sourceSpan := "computer science", column := "programme",
    candidates := [{ value := "Computer Science", confidence := 19 / 20 }] }

/-- A span in the ambiguous band with two close candidates. -/
def wSpanMY : SpanResolution :=
  { sourceSpan := "malaysia", column := "country",
    candidates := [{ value := "Malaysia", confidence := 7 / 10 },
                   { value := "Malaysia Campus", confidence := 68 / 100 }] }

/-- A span whose best candidate is below the `NoMatch` cutoff. -/
def wSpanLow : SpanResolution :=
  { sourceSpan := "qwerty", column := "programme",
    candidates := [{ value := "Something Else", confidence := 1 / 2 }] }

/-- The clarification session `process` opens for `wSpanMY`. -/
def wSess : ClarificationSession :=
  { originalQuery := "students from malaysia",
    pendingEntity :=
      { sourceSpan := "malaysia", column := "country",
        candidates := [{ value := "Malaysia", confidence := 7 / 10 },
                       { value := "Malaysia Campus", confidence := 68 / 100 }],
        chosen := none },
    role := Role.admin, ownerId := "admin",
    createdAt := 0, expiresAt := 600 }

/-- An engine state holding the one live session `wSess`. -/
def wEngine : EngineState :=
  { sessions := [(("12345", "students from malaysia"), wSess)], executed := 0 }

/-! ## Shared helper lemmas -/

/-- The pending-clarification component `askQuerySend` produces. -/
theorem askQuerySend_pending (user : UserInfo) (st : ClientState) (cq : String)
    (clarification : Option ClarAnswer) (net : FetchOutcome) :
    (askQuerySend user st cq clarification net).1.pendingClarification =
      (if needsClarificationOf (unwrapBackend (some (sendQuery net))) &&
          optionsTruthy ((unwrapBackend (some (sendQuery net))).bind Payload.options)
       then pendingOf cq (unwrapBackend (some (sendQuery net))) else none) := rfl

/-- The transcript component `askQuerySend` produces. -/
theorem askQuerySend_messages (user : UserInfo) (st : ClientState) (cq : String)
    (clarification : Option ClarAnswer) (net : FetchOutcome) :
    (askQuerySend user st cq clarification net).1.messages =
      (addUserMessage st cq clarification).messages ++
        [botMessageOf (sendQuery net) (unwrapBackend (some (sendQuery net)))
          (needsClarificationOf (unwrapBackend (some (sendQuery net))))] := rfl

/-- The request component `askQuerySend` produces. -/
theorem askQuerySend_request (user : UserInfo) (st : ClientState) (cq : String)
    (clarification : Option ClarAnswer) (net : FetchOutcome) :
    (askQuerySend user st cq clarification net).2 =
      some { query := cq, userid := user.userid, role := user.role,
             clarification := clarification } := rfl

/-- A payload classified as needing clarification has the clarify intent and
an array-valued options field. -/
theorem needs_clarification_shape (pl : Option Payload)
    (h : needsClarificationOf pl = true) :
    ∃ p l, pl = some p ∧ p.intent = some "clarify_column" ∧
      p.options = some (OptionsField.arr l) := by
  rcases pl with _ | p
  · exact absurd h (by simp [needsClarificationOf])
  · rw [needsClarificationOf] at h
    rcases Bool.and_eq_true_iff.mp h with ⟨hi, ho⟩
    rcases hopt : p.options with _ | of
    · rw [hopt] at ho
      exact absurd ho (by simp [optionsTruthy])
    · cases of with
      | null =>
        rw [hopt] at ho
        exact absurd ho (by simp [optionsTruthy])
      | arr l => exact ⟨p, l, rfl, by simpa using hi, hopt⟩

/-- Removing a key from the session table removes every entry under it. -/
theorem lookupSession_removeSession (tbl : List (SessionKey × ClarificationSession))
    (key : SessionKey) : lookupSession (removeSession tbl key) key = none := by
  induction tbl with
  | nil => rfl
  | cons e rest ih =>
    by_cases h : e.1 = key
    · simpa [removeSession, List.filter_cons, h] using ih
    · simpa [removeSession, List.filter_cons, h, lookupSession] using ih

/-- A confidence strictly above the acceptance threshold auto-resolves. -/
theorem decideEntity_auto_of_accept_lt (c : Candidate) (rest : List Candidate)
    (hc : ACCEPT_THRESHOLD < c.confidence) :
    decideEntity (c :: rest) = EntityDecision.auto c.value := by
  rw [decideEntity, if_pos (le_of_lt hc)]

/-- A span whose best confidence is strictly above the acceptance threshold
is not flagged for clarification. -/
theorem spanClarify_eq_false_of_accept_lt (sr : SpanResolution)
    (hconf : ACCEPT_THRESHOLD < topConfidence sr.candidates) :
    spanClarify sr = false := by
  rcases hc : sr.candidates with _ | ⟨c, rest⟩
  · rw [hc, topConfidence] at hconf
    exact absurd hconf (by norm_num [ACCEPT_THRESHOLD])
  · rw [hc, topConfidence] at hconf
    rw [spanClarify, hc, decideEntity_auto_of_accept_lt c rest hconf]

/-! ## Claims -/

/-- **C1.** For every query processed under a student-role `AccessScope`:
if `intent.subjectUser` is unset, `authorize` sets it to `scope.ownerId`;
if it is set and differs from `scope.ownerId`, `authorize` fails with
`Forbidden` and `process` returns the `Forbidden` error, regardless of the
intent kind (the kind and all other intent fields are universally
quantified). -/
theorem c1_student_scope_forbidden
    (query : String) (now : Nat) (spans : List SpanResolution)
    (intent0 : QueryIntent) (scope : AccessScope) (u : String)
    (hrole : scope.role = Role.student)
    (hset : intent0.subjectUser = some u)
    (hne : u ≠ scope.ownerId)
    (hres : ∀ sr ∈ spans, spanNoMatch sr = false) :
    (∀ intentU : QueryIntent, intentU.subjectUser = none →
        authorize intentU scope = Except.ok { intentU with subjectUser := some scope.ownerId }) ∧
    authorize intent0 scope = Except.error ErrKind.Forbidden ∧
    process query now spans intent0 scope =
      (Outcome.error ErrKind.Forbidden "Students may only access their own records.", none) := by
  have hauth : authorize intent0 scope = Except.error ErrKind.Forbidden := by
    rw [authorize, hrole, hset]
    simp [hne]
  refine ⟨?_, hauth, ?_⟩
  · intro intentU hU
    rw [authorize, hrole, hU]
  · have hfind : spans.find? spanNoMatch = none := by
      rw [List.find?_eq_none]
      intro sr hsr
      simp [hres sr hsr]
    rw [process, hfind, hauth]

/-- Witness for C1 at a concrete student scope and intent. -/
theorem c1_student_scope_forbidden_witness :
    authorize { kind := IntentKind.show_field, targetColumns := ["cgpa"], filters := [],
                subjectUser := some "99999" }
        { role := Role.student, ownerId := "12345" } = Except.error ErrKind.Forbidden ∧
    process "show cgpa of 99999" 0 []
        { kind := IntentKind.show_field, targetColumns := ["cgpa"], filters := [],
          subjectUser := some "99999" }
        { role := Role.student, ownerId := "12345" } =
      (Outcome.error ErrKind.Forbidden "Students may only access their own records.", none) := by
  have h := c1_student_scope_forbidden "show cgpa of 99999" 0 []
    { kind := IntentKind.show_field, targetColumns := ["cgpa"], filters := [],
      subjectUser := some "99999" }
    { role := Role.student, ownerId := "12345" } "99999"
    rfl rfl (by decide) (by intro sr hsr; cases hsr)
  exact ⟨h.2.1, h.2.2⟩

/-- **C2.** An entity span whose best vocabulary match is above the `0.90`
acceptance threshold auto-resolves, and `process` never returns a
`NeedsClarification` outcome for that entity: any clarification session it
opens is about a different span. -/
theorem c2_accept_never_clarifies
    (query : String) (now : Nat) (spans : List SpanResolution)
    (intent0 : QueryIntent) (scope : AccessScope) (sr : SpanResolution)
    (c : Candidate) (rest : List Candidate)
    (m : String) (opts : List ClarOption) (sess : ClarificationSession)
    (hc : ACCEPT_THRESHOLD < c.confidence)
    (hmem : sr ∈ spans)
    (hnodup : (spans.map SpanResolution.sourceSpan).Nodup)
    (hconf : ACCEPT_THRESHOLD < topConfidence sr.candidates)
    (hproc : process query now spans intent0 scope =
      (Outcome.needsClarification m opts, some sess)) :
    decideEntity (c :: rest) = EntityDecision.auto c.value ∧
    sess.pendingEntity.sourceSpan ≠ sr.sourceSpan := by
  refine ⟨decideEntity_auto_of_accept_lt c rest hc, ?_⟩
  rcases hnm : spans.find? spanNoMatch with _ | sr0
  · rcases hauth : authorize intent0 scope with k | intent
    · rw [process, hnm, hauth] at hproc
      exact absurd hproc (by simp)
    · rcases hcl : spans.find? spanClarify with _ | sr'
      · rw [process, hnm, hauth, hcl] at hproc
        exact absurd hproc (by simp)
      · rw [process, hnm, hauth, hcl] at hproc
        have hsess : sess.pendingEntity.sourceSpan = sr'.sourceSpan := by
          have := (Prod.mk.injEq _ _ _ _).mp hproc
          have hs := Option.some.inj this.2
          rw [← hs]
        rw [hsess]
        intro heq
        have hmem' : sr' ∈ spans := List.mem_of_find?_eq_some hcl
        have hp' : spanClarify sr' = true := List.find?_some hcl
        have hpsr : spanClarify sr = false := spanClarify_eq_false_of_accept_lt sr hconf
        have : sr' = sr :=
          List.inj_on_of_nodup_map hnodup hmem' hmem heq
        rw [this, hpsr] at hp'
        exact Bool.false_ne_true hp'
  · rw [process, hnm] at hproc
    exact absurd hproc (by simp)

/-- Witness for C2: an admin query with one span far above the threshold and
one ambiguous span; the session is about the ambiguous span, not the
accepted one. -/
theorem c2_accept_never_clarifies_witness :
    ACCEPT_THRESHOLD < topConfidence wSpanCS.candidates ∧
    wSess.pendingEntity.sourceSpan ≠ wSpanCS.sourceSpan := by
  have h1 : decideEntity [{ value := "Computer Science", confidence := 19 / 20 }] =
      EntityDecision.auto "Computer Science" := by
    rw [decideEntity, if_pos]
    norm_num [ACCEPT_THRESHOLD]
  have h2 : decideEntity [{ value := "Malaysia", confidence := 7 / 10 },
      { value := "Malaysia Campus", confidence := 68 / 100 }] = EntityDecision.clarify := by
    rw [decideEntity, if_neg, if_neg, if_pos]
    · simp [TIE_WINDOW]
      norm_num
    · norm_num [AMBIGUOUS_LOW]
    · norm_num [ACCEPT_THRESHOLD]
  have hconf : ACCEPT_THRESHOLD < topConfidence wSpanCS.candidates := by
    norm_num [wSpanCS, topConfidence, ACCEPT_THRESHOLD]
  have hproc : process "students from malaysia" 0 [wSpanCS, wSpanMY]
      { kind := IntentKind.count, targetColumns := [], filters := [], subjectUser := none }
      { role := Role.admin, ownerId := "admin" } =
      (Outcome.needsClarification "Did you mean one of these for malaysia?"
        (clarifyOptions "country" wSpanMY.candidates), some wSess) := by
    simp [process, List.find?, spanNoMatch, spanClarify, h1, h2, authorize,
      SESSION_TIMEOUT, wSess, wSpanCS, wSpanMY]
  refine ⟨hconf, ?_⟩
  exact (c2_accept_never_clarifies "students from malaysia" 0 [wSpanCS, wSpanMY]
    { kind := IntentKind.count, targetColumns := [], filters := [], subjectUser := none }
    { role := Role.admin, ownerId := "admin" } wSpanCS
    { value := "Computer Science", confidence := 19 / 20 } []
    "Did you mean one of these for malaysia?"
    (clarifyOptions "country" wSpanMY.candidates) wSess
    (by norm_num [ACCEPT_THRESHOLD]) (by simp) (by decide) hconf hproc).2

/-- **C3, counterexample.**  The claim says `pendingClarification` is cleared
at the start of every `askQuery` call.  A call with an empty input box and no
clarification answer returns at the empty-input guard, before the
`setPendingClarification(null)` reset, so the prior pending session survives
the call. -/
theorem c3_counterexample :
    (askQuery wUser wStPending none none (FetchOutcome.fail "net down")).1.pendingClarification
      = some wPending ∧
    some wPending ≠ (none : Option PendingClar) := by
  exact ⟨by decide, by simp⟩

/-- **C3, amended.**  The client keeps a single `pendingClarification` value
(at most one live session); every `askQuery` call that passes the empty-input
guard clears it and sets it again only when the new response needs
clarification — so a new query issued before resolution implicitly cancels
the prior pending session. -/
theorem c3_single_pending_session
    (user : UserInfo) (st : ClientState) (queryText : Option String)
    (clarification : Option ClarAnswer) (net : FetchOutcome)
    (hguard : ¬(currentQueryOf st queryText = "" ∧ clarification = none)) :
    (needsClarificationOf (unwrapBackend (some (sendQuery net))) = false →
        (askQuery user st queryText clarification net).1.pendingClarification = none) ∧
    (∀ pc : PendingClar,
        (askQuery user st queryText clarification net).1.pendingClarification = some pc →
        needsClarificationOf (unwrapBackend (some (sendQuery net))) = true ∧
        pc.query = currentQueryOf st queryText) := by
  have hask : askQuery user st queryText clarification net =
      askQuerySend user st (currentQueryOf st queryText) clarification net := by
    rw [askQuery]
    exact if_neg hguard
  constructor
  · intro hfalse
    rw [hask, askQuerySend_pending, hfalse]
    simp
  · intro pc hpc
    rw [hask, askQuerySend_pending] at hpc
    by_cases hneeds : needsClarificationOf (unwrapBackend (some (sendQuery net))) = true
    · refine ⟨hneeds, ?_⟩
      rcases needs_clarification_shape _ hneeds with ⟨p, l, hpl, hint, hopt⟩
      rw [hpl] at hpc
      have hcond : (needsClarificationOf (some p) &&
          optionsTruthy ((some p).bind Payload.options)) = true := by
        simp [needsClarificationOf, hint, optionsTruthy, hopt]
      have hpend : pendingOf (currentQueryOf st queryText) (some p) =
          some { query := currentQueryOf st queryText, options := l,
                 ambiguous_terms := p.ambiguous_terms.getD [], message := p.message } := by
        simp [pendingOf, hopt]
      rw [hcond, if_pos rfl, hpend] at hpc
      have hpc2 := Option.some.inj hpc
      rw [← hpc2]
    · have hfalse : needsClarificationOf (unwrapBackend (some (sendQuery net))) = false := by
        revert hneeds
        cases needsClarificationOf (unwrapBackend (some (sendQuery net))) <;> simp
      rw [hfalse] at hpc
      simp at hpc

/-- Witness for C3 (amended): a fresh query receiving a clarification payload
ends with exactly the new pending session. -/
theorem c3_single_pending_session_witness :
    needsClarificationOf (unwrapBackend (some (sendQuery wNetClarify))) = true ∧
    ({ query := "students from malaysia", options := wPending.options,
       ambiguous_terms := ["malaysia"], message := some "Please clarify" } : PendingClar).query
      = currentQueryOf wStReady none := by
  exact (c3_single_pending_session wUser wStReady none none wNetClarify (by decide)).2
    { query := "students from malaysia", options := wPending.options,
      ambiguous_terms := ["malaysia"], message := some "Please clarify" }
    (by decide)

/-- A non-empty explicit query text is the current query. -/
theorem currentQueryOf_some (st : ClientState) (t : String) (ht : t ≠ "") :
    currentQueryOf st (some t) = t := by
  rw [currentQueryOf]
  exact if_neg ht

/-- A call carrying a clarification answer always passes the empty-input guard. -/
theorem askQuery_clar_eq (user : UserInfo) (st : ClientState) (queryText : Option String)
    (a : ClarAnswer) (net : FetchOutcome) :
    askQuery user st queryText (some a) net =
      askQuerySend user st (currentQueryOf st queryText) (some a) net := by
  rw [askQuery]
  exact if_neg (by simp)

/-- **C4.** Answering a pending clarification with candidate `k` resubmits
the original pending query together with a clarification answer whose column
and value are those of option `k`; the engine-side write-back then records
`chosen = options[k].value`, and the options offered for a span list the
span's candidates in order (`options[j].value = candidates[j].value`). -/
theorem c4_clarification_roundtrip
    (user : UserInfo) (st : ClientState) (pending : PendingClar) (k : Nat)
    (net : FetchOutcome) (sess : ClarificationSession)
    (hp : st.pendingClarification = some pending)
    (hk : k < pending.options.length)
    (hq : pending.query ≠ "") :
    (handleClarification user st (pending.options.get ⟨k, hk⟩) net).2 =
      some { query := pending.query, userid := user.userid, role := user.role,
             clarification := some { column := (pending.options.get ⟨k, hk⟩).column,
                                     value := (pending.options.get ⟨k, hk⟩).value } } ∧
    (writeBackChosen sess.pendingEntity
        { column := (pending.options.get ⟨k, hk⟩).column,
          value := (pending.options.get ⟨k, hk⟩).value }).chosen =
      some ((pending.options.get ⟨k, hk⟩).value) ∧
    (∀ (col : String) (cands : List Candidate) (j : Nat)
        (hj : j < (clarifyOptions col cands).length),
        ∃ hj2 : j < cands.length,
          ((clarifyOptions col cands).get ⟨j, hj⟩).value = (cands.get ⟨j, hj2⟩).value) := by
  refine ⟨?_, rfl, ?_⟩
  · simp only [handleClarification, hp]
    rw [askQuery_clar_eq, askQuerySend_request, currentQueryOf_some _ _ hq]
  · intro col cands j hj
    have hlen : (clarifyOptions col cands).length = min MAX_OPTIONS cands.length := by
      simp [clarifyOptions]
    rw [hlen] at hj
    have hj2 : j < cands.length := lt_of_lt_of_le hj (min_le_right _ _)
    refine ⟨hj2, ?_⟩
    simp [clarifyOptions, List.get_eq_getElem]

/-- Witness for C4 at option `1` of the concrete pending clarification. -/
theorem c4_clarification_roundtrip_witness :
    wStPending.pendingClarification = some wPending ∧
    (handleClarification wUser wStPending (wPending.options.get ⟨1, by decide⟩)
        (FetchOutcome.fail "down")).2 =
      some { query := wPending.query, userid := wUser.userid, role := wUser.role,
             clarification := some { column := (wPending.options.get ⟨1, by decide⟩).column,
                                     value := (wPending.options.get ⟨1, by decide⟩).value } } :=
  ⟨rfl, (c4_clarification_roundtrip wUser wStPending wPending 1 (FetchOutcome.fail "down")
    wSess rfl (by decide) (by decide)).1⟩

/-- **C5, counterexample.**  The claim says the client classifies a payload
as needing clarification exactly when `intent = "clarify_column"` and the
payload carries an `options` field.  A payload carrying `options: null` has
the field, yet the truthiness test rejects it: the response is not treated as
a clarification and no pending state is entered. -/
theorem c5_counterexample :
    wNullOptionsPayload.intent = some "clarify_column" ∧
    wNullOptionsPayload.options.isSome = true ∧
    needsClarificationOf (some wNullOptionsPayload) = false ∧
    (askQuery wUser wStReady none none wNetNullOptions).1.pendingClarification = none := by
  exact ⟨rfl, rfl, rfl, by decide⟩

/-- **C5, amended.**  The client classifies a payload as a
`NeedsClarification` outcome exactly when its `intent` equals
`"clarify_column"` and its `options` field is present with a non-null
(truthy) value — any array, even empty, qualifies.  In that case it surfaces
the payload's message (or a fixed default), stores the pending clarification
with the ordered option list, marks the bot message as needing clarification,
and the rendered buttons list each option's value and description in order. -/
theorem c5_clarification_classification
    (p : Payload) (l : List ClarOption)
    (user : UserInfo) (st : ClientState) (queryText : Option String)
    (clarification : Option ClarAnswer) (net : FetchOutcome)
    (hguard : ¬(currentQueryOf st queryText = "" ∧ clarification = none))
    (hraw : unwrapBackend (some (sendQuery net)) = some p)
    (hint : p.intent = some "clarify_column")
    (hopt : p.options = some (OptionsField.arr l)) :
    (∀ q : Payload, needsClarificationOf (some q) = true ↔
        (q.intent = some "clarify_column" ∧
          ∃ l0, q.options = some (OptionsField.arr l0))) ∧
    needsClarificationOf (some p) = true ∧
    (askQuery user st queryText clarification net).1.pendingClarification =
      some { query := currentQueryOf st queryText, options := l,
             ambiguous_terms := p.ambiguous_terms.getD [], message := p.message } ∧
    (askQuery user st queryText clarification net).1.messages.getLast? =
      some (botMessageOf (sendQuery net) (some p) true) ∧
    (botMessageOf (sendQuery net) (some p) true).content =
      jsOrStr p.message "I need clarification to process your query." ∧
    (botMessageOf (sendQuery net) (some p) true).needsClarification = true ∧
    (renderClarificationOptions l).map RenderedOption.value = l.map ClarOption.value ∧
    (renderClarificationOptions l).map RenderedOption.description =
      l.map ClarOption.description := by
  have hneeds : needsClarificationOf (some p) = true := by
    simp [needsClarificationOf, hint, optionsTruthy, hopt]
  have hask : askQuery user st queryText clarification net =
      askQuerySend user st (currentQueryOf st queryText) clarification net := by
    rw [askQuery]
    exact if_neg hguard
  refine ⟨?_, hneeds, ?_, ?_, rfl, rfl, ?_, ?_⟩
  · intro q
    constructor
    · intro h
      rcases needs_clarification_shape (some q) h with ⟨q', l0, hq', hi, ho⟩
      rcases Option.some.inj hq' with rfl
      exact ⟨hi, l0, ho⟩
    · rintro ⟨hi, l0, ho⟩
      simp [needsClarificationOf, hi, optionsTruthy, ho]
  · rw [hask, askQuerySend_pending, hraw]
    have hcond : (needsClarificationOf (some p) &&
        optionsTruthy ((some p).bind Payload.options)) = true := by
      simp [hneeds, optionsTruthy, hopt]
    rw [hcond, if_pos rfl]
    simp [pendingOf, hopt]
  · rw [hask, askQuerySend_messages, hraw, hneeds]
    exact List.getLast?_concat _
  · simp [renderClarificationOptions, renderOption]
  · simp [renderClarificationOptions, renderOption]

/-- Witness for C5 (amended) on the concrete clarification payload. -/
theorem c5_clarification_classification_witness :
    needsClarificationOf (some wClarifyPayload) = true ∧
    (askQuery wUser wStReady none none wNetClarify).1.pendingClarification =
      some { query := currentQueryOf wStReady none, options := wPending.options,
             ambiguous_terms := wClarifyPayload.ambiguous_terms.getD [],
             message := wClarifyPayload.message } := by
  have h := c5_clarification_classification wClarifyPayload wPending.options
    wUser wStReady none none wNetClarify (by decide) rfl rfl rfl
  exact ⟨h.2.1, h.2.2.1⟩

/-- **C6.** In the Clarification Manager, a new unrelated query or an
explicit cancel moves `AwaitingClarification` to `Cancelled`; in the client,
the free-text input and the send button that would trigger those events are
both disabled while a clarification is pending. -/
theorem c6_awaiting_to_cancelled
    (st : ClientState) (p : PendingClar)
    (hp : st.pendingClarification = some p) :
    mgrStep ClarState.AwaitingClarification ClarEvent.newQuery = ClarState.Cancelled ∧
    mgrStep ClarState.AwaitingClarification ClarEvent.cancel = ClarState.Cancelled ∧
    inputDisabledFlag st = true ∧
    sendDisabledFlag st = true := by
  refine ⟨rfl, rfl, ?_, ?_⟩
  · simp [inputDisabledFlag, hp]
  · simp [sendDisabledFlag, hp]

/-- Witness for C6 at the concrete pending state. -/
theorem c6_awaiting_to_cancelled_witness :
    inputDisabledFlag wStPending = true ∧ sendDisabledFlag wStPending = true := by
  have h := c6_awaiting_to_cancelled wStPending wPending rfl
  exact ⟨h.2.2.1, h.2.2.2⟩

/-- **C7.** Answering a live clarification session destroys it and executes
the resumed query exactly once; issuing the same answer again finds no
session and returns `SessionExpired`, leaving the engine state — including
the execution counter — untouched (no double-execution). -/
theorem c7_resolved_session_expires
    (st : EngineState) (u q : String) (ans : ClarAnswer) (sess : ClarificationSession)
    (hlive : lookupSession st.sessions (u, q) = some sess) :
    (answerClarification st u q ans).1 =
      Outcome.result (resumedIntent sess (writeBackChosen sess.pendingEntity ans)) ∧
    (answerClarification st u q ans).2.executed = st.executed + 1 ∧
    (answerClarification (answerClarification st u q ans).2 u q ans).1 =
      Outcome.error ErrKind.SessionExpired
        "Your clarification session has expired. Please re-ask your query." ∧
    (answerClarification (answerClarification st u q ans).2 u q ans).2 =
      (answerClarification st u q ans).2 := by
  have h1 : answerClarification st u q ans =
      (Outcome.result (resumedIntent sess (writeBackChosen sess.pendingEntity ans)),
       { sessions := removeSession st.sessions (u, q), executed := st.executed + 1 }) := by
    rw [answerClarification, hlive]
  have h2 : answerClarification
      ({ sessions := removeSession st.sessions (u, q),
         executed := st.executed + 1 } : EngineState) u q ans =
      (Outcome.error ErrKind.SessionExpired
        "Your clarification session has expired. Please re-ask your query.",
       { sessions := removeSession st.sessions (u, q), executed := st.executed + 1 }) := by
    simp [answerClarification, lookupSession_removeSession]
  exact ⟨by simp [h1], by simp [h1], by simp [h1, h2], by simp [h1, h2]⟩

/-- Witness for C7 on a table holding one live session. -/
theorem c7_resolved_session_expires_witness :
    lookupSession wEngine.sessions ("12345", "students from malaysia") = some wSess ∧
    (answerClarification wEngine "12345" "students from malaysia"
        { column := "country", value := "Malaysia" }).2.executed = wEngine.executed + 1 ∧
    (answerClarification
        (answerClarification wEngine "12345" "students from malaysia"
          { column := "country", value := "Malaysia" }).2
        "12345" "students from malaysia" { column := "country", value := "Malaysia" }).1 =
      Outcome.error ErrKind.SessionExpired
        "Your clarification session has expired. Please re-ask your query." := by
  have hlook : lookupSession wEngine.sessions ("12345", "students from malaysia") =
      some wSess := by
    rw [show wEngine.sessions = [(("12345", "students from malaysia"), wSess)] from rfl,
      lookupSession, if_pos rfl]
  have h := c7_resolved_session_expires wEngine "12345" "students from malaysia"
    { column := "country", value := "Malaysia" } wSess hlook
  exact ⟨hlook, h.2.1, h.2.2.1⟩

/-- **C8.** A span whose best match confidence is below `0.60` resolves to
`NoMatch`; `process` surfaces it as the user-facing "could not understand X"
error — never as a clarification — and the error is terminal for the turn:
it is not transient, so the retry wrapper makes exactly one attempt. -/
theorem c8_nomatch_terminal
    (c : Candidate) (rest : List Candidate)
    (query : String) (now : Nat) (spans : List SpanResolution) (sr : SpanResolution)
    (intent0 : QueryIntent) (scope : AccessScope)
    (hc : c.confidence < AMBIGUOUS_LOW)
    (hfind : spans.find? spanNoMatch = some sr) :
    decideEntity (c :: rest) = EntityDecision.noMatch ∧
    process query now spans intent0 scope =
      (Outcome.error ErrKind.NoMatch ("could not understand " ++ sr.sourceSpan), none) ∧
    (∀ m opts, (process query now spans intent0 scope).1 ≠
      Outcome.needsClarification m opts) ∧
    isTransient ErrKind.NoMatch = false ∧
    runWithRetry (fun _ => (process query now spans intent0 scope).1) =
      (Outcome.error ErrKind.NoMatch ("could not understand " ++ sr.sourceSpan), 1) := by
  have hna : ¬ ACCEPT_THRESHOLD ≤ c.confidence := by
    intro hle
    have h35 : AMBIGUOUS_LOW ≤ ACCEPT_THRESHOLD := by
      norm_num [AMBIGUOUS_LOW, ACCEPT_THRESHOLD]
    exact absurd hc (not_lt.mpr (le_trans h35 hle))
  have hdec : decideEntity (c :: rest) = EntityDecision.noMatch := by
    rw [decideEntity, if_neg hna, if_pos hc]
  have hproc : process query now spans intent0 scope =
      (Outcome.error ErrKind.NoMatch ("could not understand " ++ sr.sourceSpan), none) := by
    rw [process, hfind]
  refine ⟨hdec, hproc, ?_, rfl, ?_⟩
  · intro m opts
    rw [hproc]
    simp
  · rw [hproc]
    simp [runWithRetry, isTransient]

/-- Witness for C8 on the concrete low-confidence span. -/
theorem c8_nomatch_terminal_witness :
    decideEntity [{ value := "Something Else", confidence := 1 / 2 }] =
      EntityDecision.noMatch ∧
    process "what is qwerty" 0 [wSpanLow]
        { kind := IntentKind.list, targetColumns := [], filters := [], subjectUser := none }
        { role := Role.admin, ownerId := "admin" } =
      (Outcome.error ErrKind.NoMatch ("could not understand " ++ wSpanLow.sourceSpan),
       none) := by
  have hlow : decideEntity [{ value := "Something Else", confidence := 1 / 2 }] =
      EntityDecision.noMatch := by
    rw [decideEntity, if_neg, if_pos]
    · norm_num [AMBIGUOUS_LOW]
    · norm_num [ACCEPT_THRESHOLD]
  have hfind : [wSpanLow].find? spanNoMatch = some wSpanLow := by
    have : spanNoMatch wSpanLow = true := by
      rw [spanNoMatch]
      rw [show wSpanLow.candidates =
        [{ value := "Something Else", confidence := 1 / 2 }] from rfl, hlow]
    simp [List.find?, this]
  have h := c8_nomatch_terminal { value := "Something Else", confidence := 1 / 2 } []
    "what is qwerty" 0 [wSpanLow] wSpanLow
    { kind := IntentKind.list, targetColumns := [], filters := [], subjectUser := none }
    { role := Role.admin, ownerId := "admin" }
    (by norm_num [AMBIGUOUS_LOW]) hfind
  exact ⟨h.1, h.2.1⟩

/-- **C9.** The client's `sendQuery` is total: a network failure returns the
`{success: false, message, data: [], error: true}` shape, a non-2xx response
returns the same shape with the `HTTP <status>: <body>` message, a 2xx
response with parseable JSON returns the parsed payload, and every outcome is
one of those two forms; consequently an `askQuery` invocation that posts a
request appends exactly one bot message, and one that posts none leaves the
state untouched. -/
theorem c9_sendQuery_total
    (m text : String) (status okStatus : Nat) (j : JsonResult) (d : Payload)
    (user : UserInfo) (st : ClientState) (queryText : Option String)
    (clarification : Option ClarAnswer) (net : FetchOutcome) :
    sendQuery (FetchOutcome.fail m) = errorShape m ∧
    (respOk status = false →
      sendQuery (FetchOutcome.resp status text j) =
        errorShape ("HTTP " ++ toString status ++ ": " ++ text)) ∧
    (respOk okStatus = true →
      sendQuery (FetchOutcome.resp okStatus text (JsonResult.parsed d)) = d) ∧
    (errorShape m).success = some false ∧
    (errorShape m).message = some m ∧
    (errorShape m).data = some ([] : List Row) ∧
    (errorShape m).error = true ∧
    (∀ net2 : FetchOutcome,
      (∃ s t d2, net2 = FetchOutcome.resp s t (JsonResult.parsed d2) ∧
        respOk s = true ∧ sendQuery net2 = d2) ∨
      (∃ m2, sendQuery net2 = errorShape m2)) ∧
    (∀ req, (askQuery user st queryText clarification net).2 = some req →
      botCount (askQuery user st queryText clarification net).1.messages =
        botCount st.messages + 1) ∧
    ((askQuery user st queryText clarification net).2 = none →
      (askQuery user st queryText clarification net).1 = st) := by
  refine ⟨rfl, ?_, ?_, rfl, rfl, rfl, rfl, ?_, ?_, ?_⟩
  · intro h
    simp [sendQuery, h]
  · intro h
    simp [sendQuery, h]
  · intro net2
    cases net2 with
    | fail m2 => exact Or.inr ⟨m2, rfl⟩
    | resp s t j2 =>
      rcases hok : respOk s with _ | _
      · exact Or.inr ⟨"HTTP " ++ toString s ++ ": " ++ t, by simp [sendQuery, hok]⟩
      · cases j2 with
        | parsed d2 => exact Or.inl ⟨s, t, d2, rfl, hok, by simp [sendQuery, hok]⟩
        | threw m2 => exact Or.inr ⟨m2, by simp [sendQuery, hok]⟩
  · intro req hreq
    by_cases hg : currentQueryOf st queryText = "" ∧ clarification = none
    · simp [askQuery, hg] at hreq
    · have hask : askQuery user st queryText clarification net =
          askQuerySend user st (currentQueryOf st queryText) clarification net := by
        rw [askQuery]
        exact if_neg hg
      rw [hask, askQuerySend_messages]
      rcases clarification with _ | a
      · simp [botCount, addUserMessage, botMessageOf, List.filter_append]
      · simp [botCount, addUserMessage, botMessageOf, List.filter_append]
  · intro hnone
    by_cases hg : currentQueryOf st queryText = "" ∧ clarification = none
    · simp [askQuery, hg]
    · have hask : askQuery user st queryText clarification net =
          askQuerySend user st (currentQueryOf st queryText) clarification net := by
        rw [askQuery]
        exact if_neg hg
      rw [hask, askQuerySend_request] at hnone
      exact absurd hnone (by simp)

/-- Witness for C9: a thrown fetch, a 404 and a successful request each take
the claimed form. -/
theorem c9_sendQuery_total_witness :
    sendQuery (FetchOutcome.fail "boom") = errorShape "boom" ∧
    respOk 404 = false ∧
    sendQuery (FetchOutcome.resp 404 "not found" (JsonResult.parsed wClarifyPayload)) =
      errorShape ("HTTP " ++ toString 404 ++ ": " ++ "not found") ∧
    botCount (askQuery wUser wStReady none none wNetClarify).1.messages =
      botCount wStReady.messages + 1 := by
  have h := c9_sendQuery_total "boom" "not found" 404 200
    (JsonResult.parsed wClarifyPayload) wClarifyPayload
    wUser wStReady none none wNetClarify
  refine ⟨h.1, by decide, h.2.1 (by decide), ?_⟩
  exact h.2.2.2.2.2.2.2.2.1
    { query := "students from malaysia", userid := "12345", role := "student",
      clarification := none } (by decide)

/-- **C10.** For a non-empty list of rows, `downloadCSV` emits the first
row's keys joined by commas as the header, then one record per row in order
over those keys; a `null` or absent (`undefined`) field becomes the
two-character literal consisting of two double quotes; a field whose string
form contains a comma, double quote or newline is wrapped in double quotes
with inner quotes doubled; any other field is emitted raw; an empty input
produces no file. -/
theorem c10_downloadCSV_format
    (r0 : Row) (rest : List Row) (s : String) :
    downloadCSV ([] : List Row) = none ∧
    downloadCSV (r0 :: rest) = some (String.intercalate "\n"
      (String.intercalate "," (r0.map Prod.fst) ::
        (r0 :: rest).map fun row =>
          String.intercalate ","
            ((r0.map Prod.fst).map fun k => csvCell (rowGet row k)))) ∧
    csvCell none = "\"\"" ∧
    csvCell (some JsVal.null) = "\"\"" ∧
    csvCell (some JsVal.undef) = "\"\"" ∧
    ("\"\"" : String).length = 2 ∧
    (needsQuoting s = true →
      csvCell (some (JsVal.str s)) = "\"" ++ escapeQuotes s ++ "\"") ∧
    (needsQuoting s = false → csvCell (some (JsVal.str s)) = s) := by
  refine ⟨rfl, rfl, rfl, rfl, rfl, rfl, ?_, ?_⟩
  · intro h
    simp [csvCell, jsString, h]
  · intro h
    simp [csvCell, jsString, h]

/-- Witness for C10: a quoted field, a null field and the doubling of
embedded quotes, on a concrete table. -/
theorem c10_downloadCSV_format_witness :
    needsQuoting "x,y" = true ∧
    csvCell (some (JsVal.str "x,y")) = "\"" ++ escapeQuotes "x,y" ++ "\"" ∧
    downloadCSV [[("a", JsVal.str "x,y"), ("b", JsVal.null)]] =
      some "a,b\n\"x,y\",\"\"" ∧
    escapeQuotes "say \"hi\"" = "say \"\"hi\"\"" := by
  have h := c10_downloadCSV_format [("a", JsVal.str "x,y"), ("b", JsVal.null)] [] "x,y"
  exact ⟨by decide, h.2.2.2.2.2.2.1 (by decide), by decide, by decide⟩

end UniChat
